import Mathlib

/-!
Shallow embedding of the EstatisticasIBGE dashboard pipeline (src/app.py).

The program fetches mortality and divorce statistics from the SIDRA API,
normalizes the raw records into (year, value, unit) series, aggregates the
non-married category series into one composite series by an outer join on
year, caches results per region, and annotates charts with a last-year
ratio and linear trends.

Modelling choices:
* A raw SIDRA record (a JSON object) is a list of (key, value) string
  pairs in insertion order; Python dict iteration order is insertion order.
* Numeric values are rationals (the floats in play are exact small
  decimals, and no claim depends on rounding).
* The network is an oracle from a structured request (the parameters the
  source encodes in the URL path) to `Option` of a record list; `none`
  models a transport error, a non-2xx status or a non-JSON body, all of
  which the source catches in one `except` arm.
* The Streamlit session cache `st.session_state.cached_data` is an
  association list keyed by the region id, consulted front-first;
  insertion conses at the front, which models dict overwrite.
-/

/-! Section: Constants from src/app.py -/

def TABELA_OBITOS : Nat := 2683

def VARIAVEL_OBITOS : String := "343"

def NATUREZA_OBITO : String := "99818"

def ESTADO_CIVIL_CASADO : String := "99197"

def ESTADO_CIVIL_NAO_CASADOS : List String :=
  ["78090", "78092", "78093", "78094", "99195", "99217"]

def PERIODOS_OBITOS : List String :=
  (List.range 20).map (fun i => toString (2003 + i))

def TABELA_DIVORCIOS : Nat := 1695

def VARIAVEL_DIVORCIOS : String := "393"

def TEMPO_CASAMENTOS : List (String × String) :=
  [("8074", "Menos de 1 ano"), ("8084", "10 a 14 anos"),
   ("8090", "15 a 19 anos"), ("8097", "20 a 25 anos")]

def PERIODOS_DIVORCIOS : List String :=
  (List.range 14).map (fun i => toString (2009 + i))

/-! Section: Data model -/

/-- One raw SIDRA record: the JSON object's (key, value) pairs in order. -/
abbrev RawRecord := List (String × String)

/-- One row of the processed DataFrame: year, value and unit of measure. -/
structure Point where
  ano : String
  valor : ℚ
  unidade : String
deriving DecidableEq

/-- Python `item.get(key)`: first value stored under `key`, if any. -/
def lookupField (item : RawRecord) (key : String) : Option String :=
  (item.find? (fun kv => kv.1 == key)).map Prod.snd

/-! Section: Normalizer: `processar_dados` -/

/-- The sentinel strings `['-', 'X', '..', '...']` filtered at line 179. -/
def SENTINELAS : List String := ["-", "X", "..", "..."]

/-- Digit run to a natural number. -/
def digitsToNat (cs : List Char) : Nat :=
  cs.foldl (fun a c => 10 * a + (c.toNat - Char.toNat '0')) 0

/-- Model of `valor_str.replace` normalizing the decimal comma: a
single-character replacement, so a map over the characters. -/
def replaceComma (s : String) : String :=
  ⟨s.data.map (fun c => if c == ',' then '.' else c)⟩

/-- Model of `key.startswith` for the year-field scan: the first
character is `D`. -/
def startsWithD (s : String) : Bool :=
  match s.data with
  | c :: _ => c == 'D'
  | [] => false

/-- Decimal-string parsing, modelling Python `float()` on the decimal
strings the API returns: optional sign, digit run, optional fractional
digit run after one dot. Any other shape fails (raises `ValueError` in the
source, which drops the record). -/
def parseDecimal (s : String) : Option ℚ :=
  let signed : Bool × List Char :=
    match s.data with
    | '-' :: r => (true, r)
    | '+' :: r => (false, r)
    | r => (false, r)
  let intPart := signed.2.takeWhile Char.isDigit
  let rest := signed.2.dropWhile Char.isDigit
  match rest with
  | [] =>
    if intPart.isEmpty then none
    else some (if signed.1 then -(digitsToNat intPart : ℚ) else (digitsToNat intPart : ℚ))
  | '.' :: frac =>
    if frac.all Char.isDigit && !(intPart.isEmpty && frac.isEmpty) then
      let mag : ℚ :=
        (digitsToNat intPart : ℚ) + (digitsToNat frac : ℚ) / ((10 : ℚ) ^ frac.length)
      some (if signed.1 then -mag else mag)
    else none
  | _ => none

/-- Line 166-170: scan the record's fields in order for the first key that
starts with `'D'` whose value is in `PERIODOS_OBITOS + PERIODOS_DIVORCIOS`. -/
def findAno (item : RawRecord) : Option String :=
  (item.find? (fun kv =>
    startsWithD kv.1 && decide (kv.2 ∈ PERIODOS_OBITOS ++ PERIODOS_DIVORCIOS))).map
    Prod.snd

/-- Lines 163-193, a single loop iteration of `processar_dados`: find the
year field (else drop), read `item.get('V', '0')`, drop sentinels, parse
the value with `','` normalized to `'.'` (parse failure drops), and read
`item.get('MN', '')` as the unit. -/
def processRecord (item : RawRecord) : Option Point :=
  match findAno item with
  | none => none
  | some ano =>
    let valorStr := (lookupField item "V").getD "0"
    if valorStr ∈ SENTINELAS then none
    else
      match parseDecimal (replaceComma valorStr) with
      | none => none
      | some valor => some ⟨ano, valor, (lookupField item "MN").getD ""⟩

/-- Function `processar_dados`: the rows of the returned DataFrame, in
input order. -/
def processar_dados (data : List RawRecord) : List Point :=
  data.filterMap processRecord

/-! Section: Aggregator: the merge loop of `get_data_for_region` (lines 538-558) -/

/-- Year membership in a series. -/
def memYear (s : List Point) (y : String) : Bool :=
  s.any (fun p => p.ano == y)

/-- Value of the series at a year (first matching row), 0 when absent. -/
def valueAt (s : List Point) (y : String) : ℚ :=
  match s.find? (fun p => p.ano == y) with
  | some p => p.valor
  | none => 0

/-- Unit of the series at a year (first matching row), `""` when absent. -/
def unitAt (s : List Point) (y : String) : String :=
  match s.find? (fun p => p.ano == y) with
  | some p => p.unidade
  | none => ""

/-- A series has at most one row per year. -/
def UniqueYears (s : List Point) : Prop :=
  (s.map Point.ano).Nodup

instance (s : List Point) : Decidable (UniqueYears s) :=
  inferInstanceAs (Decidable ((s.map Point.ano).Nodup))

/-- One left row of the outer merge (lines 550-552): a matching right row
contributes its value (`Valor_x + Valor_y`); the unit is `Unidade_x`
because `fillna` only replaces missing entries, never present ones. -/
def mergePoint (b : List Point) (p : Point) : Point :=
  match b.find? (fun q => q.ano == p.ano) with
  | some q => ⟨p.ano, p.valor + q.valor, p.unidade⟩
  | none => ⟨p.ano, p.valor, p.unidade⟩

/-- Model of the outer `pd.merge` on the year column followed by the `fillna`
arithmetic of lines 551-553: left rows (with matching right value added),
then the right rows whose year the left side lacks. -/
def mergeOuter (a b : List Point) : List Point :=
  a.map (mergePoint b) ++ b.filter (fun q => !(memYear a q.ano))

/-- One iteration of the accumulation loop (lines 545-553): an empty group
is skipped, the first non-empty group is copied, later groups are merged. -/
def aggStep (total grupo : List Point) : List Point :=
  if grupo.isEmpty then total
  else if total.isEmpty then grupo
  else mergeOuter total grupo

/-- The Aggregator: fold of the merge loop over the per-category series,
starting from the empty DataFrame. -/
def aggregate (inputs : List (List Point)) : List Point :=
  inputs.foldl aggStep []

/-! Section: Fetcher: the `consultar_*` functions -/

/-- The query parameters the source encodes in the URL path, in path
order: table, variable, period list, category filters, geographic level
and id. -/
structure Req where
  tabela : Nat
  variavel : String
  periodos : List String
  filtros : List (String × String)
  nivel : String
  geo : String
deriving DecidableEq

/-- The URL the source builds for a request (the f-strings at lines 87,
101, 114, 130, 144). -/
def mkUrl (r : Req) : String :=
  "https://apisidra.ibge.gov.br/values/t/" ++ toString r.tabela ++
    "/v/" ++ r.variavel ++ "/p/" ++ String.intercalate "," r.periodos ++
    (r.filtros.foldl (fun s kv => s ++ "/" ++ kv.1 ++ "/" ++ kv.2) "") ++
    "/" ++ r.nivel ++ "/" ++ r.geo ++ "/f/n"

/-- The network oracle: `none` is a failed request (transport error,
non-2xx, or non-JSON body — one `except` arm in the source). -/
abbrev Net := Req → Option (List RawRecord)

/-- Request for table 2683 (deaths): filters `c9832` (marital status) and
`c1836` (nature of death, fixed to non-natural). -/
def reqObitos (estadoCivil nivel geo : String) : Req :=
  ⟨TABELA_OBITOS, VARIAVEL_OBITOS, PERIODOS_OBITOS,
   [("c9832", estadoCivil), ("c1836", NATUREZA_OBITO)], nivel, geo⟩

/-- Request for table 1695 (divorces): filter `c345` (marriage duration). -/
def reqDivorcios (tempo nivel geo : String) : Req :=
  ⟨TABELA_DIVORCIOS, VARIAVEL_DIVORCIOS, PERIODOS_DIVORCIOS,
   [("c345", tempo)], nivel, geo⟩

/-- Lines 82-107: fetch deaths of married people at level `n7` (the
metropolitan region); on failure retry once at `n1/1` (Brazil); on a
second failure return `[]`. Also returns the requests issued, in order. -/
def consultar_obitos_casados (net : Net) (rm_id : String) :
    List RawRecord × List Req :=
  let r := reqObitos ESTADO_CIVIL_CASADO "n7" rm_id
  match net r with
  | some data => (data, [r])
  | none =>
    let ra := reqObitos ESTADO_CIVIL_CASADO "n1" "1"
    match net ra with
    | some data => (data, [r, ra])
    | none => ([], [r, ra])

/-- Lines 109-123: fetch deaths for one non-married marital-status code.
On failure return `[]`: this function has no national fallback. -/
def consultar_obitos_nao_casados (net : Net) (rm_id codigo : String) :
    List RawRecord × List Req :=
  let r := reqObitos codigo "n7" rm_id
  match net r with
  | some data => (data, [r])
  | none => ([], [r])

/-- Lines 125-150: fetch divorces for one marriage-duration code; on
failure retry once at `n1/1`; on a second failure return `[]`. -/
def consultar_divorcios (net : Net) (rm_id tempo : String) :
    List RawRecord × List Req :=
  let r := reqDivorcios tempo "n7" rm_id
  match net r with
  | some data => (data, [r])
  | none =>
    let ra := reqDivorcios tempo "n1" "1"
    match net ra with
    | some data => (data, [r, ra])
    | none => ([], [r, ra])

/-! Section: Cache and the pipeline entry point: `get_data_for_region` -/

/-- The per-region payload `location_data`: the married series, the
aggregated non-married series, and one divorce series per duration code. -/
structure LocationData where
  obitos_casados : List Point
  obitos_nao_casados : List Point
  divorcios : List (String × List Point)
deriving DecidableEq

/-- The session cache `st.session_state.cached_data`, keyed by region id. -/
abbrev Cache := List (String × LocationData)

/-- Dictionary lookup. -/
def Cache.lookup (c : Cache) (rm_id : String) : Option LocationData :=
  (c.find? (fun kv => kv.1 == rm_id)).map Prod.snd

/-- Dictionary assignment (front insertion shadows any older entry). -/
def Cache.insert (rm_id : String) (ld : LocationData) (c : Cache) : Cache :=
  (rm_id, ld) :: c

/-- Lines 538-558: the loop over `ESTADO_CIVIL_NAO_CASADOS` that fetches
each category, processes it, and accumulates the composite series with
`aggStep`. Returns the composite and the requests issued. -/
def fetch_nao_casados (net : Net) (rm_id : String) :
    List Point × List Req :=
  ESTADO_CIVIL_NAO_CASADOS.foldl
    (fun acc codigo =>
      let r := consultar_obitos_nao_casados net rm_id codigo
      (aggStep acc.1 (processar_dados r.1), acc.2 ++ r.2))
    ([], [])

/-- Lines 561-567: the loop over `TEMPO_CASAMENTOS` that fetches and
processes each divorce-duration series. -/
def fetch_divorcios (net : Net) (rm_id : String) :
    List (String × List Point) × List Req :=
  TEMPO_CASAMENTOS.foldl
    (fun acc kv =>
      let r := consultar_divorcios net rm_id kv.1
      (acc.1 ++ [(kv.1, processar_dados r.1)], acc.2 ++ r.2))
    ([], [])

/-- Lines 517-573: consult the cache first (a hit returns the cached
payload with no network activity); on a miss run every fetch, build the
payload, and store it in the cache unconditionally (line 570 runs whether
or not any fetch succeeded). Returns the payload, the new cache, and the
requests issued. -/
def get_data_for_region (net : Net) (cache : Cache) (rm_id : String) :
    LocationData × Cache × List Req :=
  match Cache.lookup cache rm_id with
  | some d => (d, cache, [])
  | none =>
    let rc := consultar_obitos_casados net rm_id
    let nc := fetch_nao_casados net rm_id
    let dv := fetch_divorcios net rm_id
    let ld : LocationData := ⟨processar_dados rc.1, nc.1, dv.1⟩
    (ld, Cache.insert rm_id ld cache, rc.2 ++ nc.2 ++ dv.2)

/-- The always-failing network: every request errors out. -/
def netFail : Net := fun _ => none

/-- A network on which every request succeeds with an empty record list. -/
def netOk : Net := fun _ => some []

/-! Section: Derived metrics: the ratio annotation of `criar_grafico_obitos` -/

/-- Lexicographic order on character lists: how pandas compares the string
entries of the `'Ano'` column when sorting. -/
def lexLe : List Char → List Char → Bool
  | [], _ => true
  | _ :: _, [] => false
  | c :: cs, d :: ds => if c < d then true else if d < c then false else lexLe cs ds

/-- Model of sorting by year and taking the final row: the last row among those with the
maximal year (the sort is stable, so ties keep input order and the last
tied row wins). -/
def lastByAno : List Point → Option Point
  | [] => none
  | p :: rest =>
    some (rest.foldl (fun acc q => if lexLe acc.ano.data q.ano.data then q else acc) p)

/-- Lines 345-355: the ratio text is produced only when both series are
non-empty, their maximal-year rows carry the same year, and the married
(denominator) value there is positive; then it reports
non-married/married at that year. -/
def razaoUltimoAno (dfCasados dfNaoCasados : List Point) : Option ℚ :=
  match lastByAno dfCasados, lastByAno dfNaoCasados with
  | some uc, some un =>
    if uc.ano = un.ano ∧ 0 < uc.valor then some (un.valor / uc.valor)
    else none
  | _, _ => none

/-! Section: Definitions taken from the spec's words (refinement targets only) -/

/-- Modelled from the spec: "find the latest year present in both; if
found and the denominator value there is >0, report the ratio for that
year". Used only to compare the spec's last-common-year rule with the
source's same-max-year rule. -/
def specLastCommonYearRatio (den num : List Point) : Option ℚ :=
  match (den.map Point.ano).filter (fun y => num.any (fun q => q.ano == y)) with
  | [] => none
  | y0 :: ys =>
    let y := ys.foldl (fun m z => if lexLe m.data z.data then z else m) y0
    match den.find? (fun p => p.ano == y), num.find? (fun q => q.ano == y) with
    | some dp, some np => if 0 < dp.valor then some (np.valor / dp.valor) else none
    | _, _ => none

/-- Modelled from the spec: "composite unit = the first non-empty unit
observed for that year, scanning inputs in input order". Used only to
compare with the source's `fillna` rule. -/
def specFirstNonemptyUnitAt (inputs : List (List Point)) (y : String) : String :=
  match (inputs.filterMap (fun s => (s.find? (fun p => p.ano == y)).map Point.unidade)).find?
      (fun u => u != "") with
  | some u => u
  | none => ""

/-- The unit actually chosen by the merge loop: the unit the first input
series containing the year assigns to it, empty or not. -/
def firstUnitAt (inputs : List (List Point)) (y : String) : String :=
  match inputs.find? (fun s => memYear s y) with
  | some s => unitAt s y
  | none => ""

/-! Section: The full request vocabulary of one region fetch -/

/-- Every request `get_data_for_region` can possibly issue for a region,
in issue order: the married request and its fallback, the six non-married
requests (no fallback exists for them), and the four divorce requests,
each with its fallback. -/
def allReqs (rm_id : String) : List Req :=
  [reqObitos ESTADO_CIVIL_CASADO "n7" rm_id, reqObitos ESTADO_CIVIL_CASADO "n1" "1"]
    ++ ESTADO_CIVIL_NAO_CASADOS.map (fun c => reqObitos c "n7" rm_id)
    ++ (TEMPO_CASAMENTOS.map
        (fun kv => [reqDivorcios kv.1 "n7" rm_id, reqDivorcios kv.1 "n1" "1"])).flatten

/-- Discriminating key of a request: table, category filters and
geographic level. Within one region fetch these three fields already
separate every request (the geographic id never disambiguates). -/
def reqKey (r : Req) : Nat × List (String × String) × String :=
  (r.tabela, r.filtros, r.nivel)

/-! Section: Helper lemmas: the outer merge -/

theorem mergePoint_ano (b : List Point) (p : Point) : (mergePoint b p).ano = p.ano := by
  unfold mergePoint
  cases b.find? (fun q => q.ano == p.ano) <;> rfl

theorem mergePoint_unidade (b : List Point) (p : Point) :
    (mergePoint b p).unidade = p.unidade := by
  unfold mergePoint
  cases b.find? (fun q => q.ano == p.ano) <;> rfl

theorem find?_map_mergePoint (a b : List Point) (y : String) :
    (a.map (mergePoint b)).find? (fun p => p.ano == y) =
      (a.find? (fun p => p.ano == y)).map (mergePoint b) := by
  rw [List.find?_map]
  have hfun : ((fun p : Point => p.ano == y) ∘ mergePoint b) = (fun p : Point => p.ano == y) := by
    funext p
    simp [Function.comp, mergePoint_ano]
  rw [hfun]

theorem find?_filter_not_mem (a b : List Point) (y : String) (h : memYear a y = false) :
    (b.filter (fun q => !(memYear a q.ano))).find? (fun q => q.ano == y) =
      b.find? (fun q => q.ano == y) := by
  induction b with
  | nil => rfl
  | cons q rest ih =>
    rw [List.filter_cons]
    by_cases hq : q.ano = y
    · have hmem : memYear a q.ano = false := by rw [hq]; exact h
      rw [if_pos (by simp [hmem])]
      rw [List.find?_cons, List.find?_cons]
      simp [hq]
    · rw [List.find?_cons]
      have hbeq : (q.ano == y) = false := by simp [hq]
      rw [hbeq]
      split
      · rw [List.find?_cons, hbeq]
        exact ih
      · exact ih

theorem find?_eq_none_of_memYear_false {a : List Point} {y : String}
    (h : memYear a y = false) : a.find? (fun p => p.ano == y) = none := by
  rw [List.find?_eq_none]
  intro p hp hpy
  have : memYear a y = true := by
    unfold memYear
    exact List.any_eq_true.mpr ⟨p, hp, hpy⟩
  rw [this] at h
  exact Bool.noConfusion h

theorem memYear_exists {a : List Point} {y : String} (h : memYear a y = true) :
    ∃ p, a.find? (fun p => p.ano == y) = some p ∧ p.ano = y := by
  unfold memYear at h
  have hs : (a.find? (fun p => p.ano == y)).isSome = true :=
    List.find?_isSome.mpr (List.any_eq_true.mp h)
  cases hf : a.find? (fun p => p.ano == y) with
  | none => rw [hf] at hs; exact absurd hs (by simp)
  | some p =>
    refine ⟨p, rfl, ?_⟩
    have := List.find?_some hf
    exact beq_iff_eq.mp this

theorem valueAt_eq_zero_of_memYear_false {a : List Point} {y : String}
    (h : memYear a y = false) : valueAt a y = 0 := by
  unfold valueAt
  rw [find?_eq_none_of_memYear_false h]

theorem unitAt_eq_empty_of_memYear_false {a : List Point} {y : String}
    (h : memYear a y = false) : unitAt a y = "" := by
  unfold unitAt
  rw [find?_eq_none_of_memYear_false h]

theorem valueAt_mergeOuter (a b : List Point) (y : String) :
    valueAt (mergeOuter a b) y = valueAt a y + valueAt b y := by
  unfold mergeOuter
  unfold valueAt
  rw [List.find?_append, find?_map_mergePoint]
  cases h : memYear a y
  · rw [find?_eq_none_of_memYear_false h, find?_filter_not_mem a b y h]
    cases hb : b.find? (fun q => q.ano == y) <;> simp [Option.map, Option.or]
  · obtain ⟨p, hf, hpy⟩ := memYear_exists h
    rw [hf]
    simp only [Option.map_some', Option.or_some]
    unfold mergePoint
    rw [hpy]
    cases hb : b.find? (fun q => q.ano == y) <;> simp

theorem unitAt_mergeOuter (a b : List Point) (y : String) :
    unitAt (mergeOuter a b) y = if memYear a y then unitAt a y else unitAt b y := by
  unfold mergeOuter
  unfold unitAt
  rw [List.find?_append, find?_map_mergePoint]
  cases h : memYear a y
  · rw [find?_eq_none_of_memYear_false h, find?_filter_not_mem a b y h]
    simp
  · obtain ⟨p, hf, hpy⟩ := memYear_exists h
    rw [hf]
    simp only [Option.map_some', Option.or_some, if_true]
    exact mergePoint_unidade b p

theorem memYear_mergeOuter (a b : List Point) (y : String) :
    memYear (mergeOuter a b) y = (memYear a y || memYear b y) := by
  cases h : memYear a y
  · cases hb : memYear b y
    · simp only [Bool.false_or]
      unfold memYear mergeOuter
      rw [List.any_append]
      have h1 : (a.map (mergePoint b)).any (fun p => p.ano == y) = false := by
        simp only [List.any_map]
        rw [Bool.eq_false_iff]
        intro hc
        obtain ⟨p, hp, hpy⟩ := List.any_eq_true.mp hc
        simp only [Function.comp, mergePoint_ano] at hpy
        have : memYear a y = true := List.any_eq_true.mpr ⟨p, hp, hpy⟩
        rw [this] at h; exact Bool.noConfusion h
      have h2 : (b.filter (fun q => !(memYear a q.ano))).any (fun p => p.ano == y) = false := by
        rw [Bool.eq_false_iff]
        intro hc
        obtain ⟨p, hp, hpy⟩ := List.any_eq_true.mp hc
        have : memYear b y = true :=
          List.any_eq_true.mpr ⟨p, (List.mem_filter.mp hp).1, hpy⟩
        rw [this] at hb; exact Bool.noConfusion hb
      rw [h1, h2]
      rfl
    · simp only [Bool.false_or]
      obtain ⟨p, hf, hpy⟩ := memYear_exists hb
      unfold memYear mergeOuter
      rw [List.any_append]
      have hp := List.mem_of_find?_eq_some hf
      have h2 : (b.filter (fun q => !(memYear a q.ano))).any (fun q => q.ano == y) = true := by
        refine List.any_eq_true.mpr ⟨p, ?_, by simp [hpy]⟩
        refine List.mem_filter.mpr ⟨hp, ?_⟩
        rw [hpy, h]
        rfl
      rw [h2]
      simp
  · simp only [Bool.true_or]
    obtain ⟨p, hf, hpy⟩ := memYear_exists h
    unfold memYear mergeOuter
    rw [List.any_append]
    have hp := List.mem_of_find?_eq_some hf
    have h1 : (a.map (mergePoint b)).any (fun q => q.ano == y) = true := by
      refine List.any_eq_true.mpr ⟨mergePoint b p, List.mem_map.mpr ⟨p, hp, rfl⟩, ?_⟩
      simp [mergePoint_ano, hpy]
    rw [h1]
    rfl

theorem uniqueYears_mergeOuter {a b : List Point} (ha : UniqueYears a)
    (hb : UniqueYears b) : UniqueYears (mergeOuter a b) := by
  unfold UniqueYears mergeOuter
  rw [List.map_append]
  apply List.Nodup.append
  · rw [List.map_map]
    have : a.map (Point.ano ∘ mergePoint b) = a.map Point.ano :=
      List.map_congr_left (fun p _ => mergePoint_ano b p)
    rw [this]
    exact ha
  · exact ((List.filter_sublist b).map Point.ano).nodup hb
  · intro y hy1 hy2
    obtain ⟨p, hp, hpy⟩ := List.mem_map.mp hy1
    obtain ⟨q, hq, hqy⟩ := List.mem_map.mp hy2
    obtain ⟨p0, hp0, hp0e⟩ := List.mem_map.mp hp
    have hqf := (List.mem_filter.mp hq).2
    have hmem : memYear a y = true := by
      refine List.any_eq_true.mpr ⟨p0, hp0, ?_⟩
      rw [beq_iff_eq]
      rw [← hpy, ← hp0e, mergePoint_ano]
    rw [← hqy] at hmem
    rw [hmem] at hqf
    simp at hqf

/-! Section: Helper lemmas: the accumulation loop -/

theorem valueAt_aggStep (t g : List Point) (y : String) :
    valueAt (aggStep t g) y = valueAt t y + valueAt g y := by
  unfold aggStep
  split
  · have hg : g = [] := List.isEmpty_iff.mp (by assumption)
    subst hg
    have : valueAt ([] : List Point) y = 0 := rfl
    rw [this, add_zero]
  · split
    · have ht : t = [] := List.isEmpty_iff.mp (by assumption)
      subst ht
      have : valueAt ([] : List Point) y = 0 := rfl
      rw [this, zero_add]
    · exact valueAt_mergeOuter t g y

theorem memYear_aggStep (t g : List Point) (y : String) :
    memYear (aggStep t g) y = (memYear t y || memYear g y) := by
  unfold aggStep
  split
  · have hg : g = [] := List.isEmpty_iff.mp (by assumption)
    subst hg
    simp [memYear]
  · split
    · have ht : t = [] := List.isEmpty_iff.mp (by assumption)
      subst ht
      simp [memYear]
    · exact memYear_mergeOuter t g y

theorem unitAt_aggStep (t g : List Point) (y : String) :
    unitAt (aggStep t g) y = if memYear t y then unitAt t y else unitAt g y := by
  unfold aggStep
  split
  · have hg : g = [] := List.isEmpty_iff.mp (by assumption)
    subst hg
    cases h : memYear t y
    · simp only [if_false, Bool.false_eq_true]
      rw [unitAt_eq_empty_of_memYear_false h]
      rfl
    · simp
  · split
    · have ht : t = [] := List.isEmpty_iff.mp (by assumption)
      subst ht
      have : memYear ([] : List Point) y = false := rfl
      rw [this]
      simp
    · exact unitAt_mergeOuter t g y

theorem uniqueYears_aggStep {t g : List Point} (ht : UniqueYears t)
    (hg : UniqueYears g) : UniqueYears (aggStep t g) := by
  unfold aggStep
  split
  · exact ht
  · split
    · exact hg
    · exact uniqueYears_mergeOuter ht hg

theorem valueAt_foldl (l : List (List Point)) :
    ∀ (t : List Point) (y : String),
      valueAt (l.foldl aggStep t) y = valueAt t y + (l.map (fun s => valueAt s y)).sum := by
  induction l with
  | nil => intro t y; simp
  | cons g rest ih =>
    intro t y
    rw [List.foldl_cons, ih, valueAt_aggStep, List.map_cons, List.sum_cons, add_assoc]

theorem memYear_foldl (l : List (List Point)) :
    ∀ (t : List Point) (y : String),
      memYear (l.foldl aggStep t) y = (memYear t y || l.any (fun s => memYear s y)) := by
  induction l with
  | nil => intro t y; simp
  | cons g rest ih =>
    intro t y
    rw [List.foldl_cons, ih, memYear_aggStep, List.any_cons, Bool.or_assoc]

theorem uniqueYears_foldl (l : List (List Point)) :
    ∀ (t : List Point), UniqueYears t → (∀ s ∈ l, UniqueYears s) →
      UniqueYears (l.foldl aggStep t) := by
  induction l with
  | nil => intro t ht _; exact ht
  | cons g rest ih =>
    intro t ht hl
    rw [List.foldl_cons]
    exact ih _ (uniqueYears_aggStep ht (hl g (List.mem_cons_self g rest)))
      (fun s hs => hl s (List.mem_cons_of_mem g hs))

theorem firstUnitAt_cons (g : List Point) (l : List (List Point)) (y : String) :
    firstUnitAt (g :: l) y = if memYear g y then unitAt g y else firstUnitAt l y := by
  unfold firstUnitAt
  rw [List.find?_cons]
  cases h : memYear g y <;> simp

theorem unitAt_foldl (l : List (List Point)) :
    ∀ (t : List Point) (y : String),
      unitAt (l.foldl aggStep t) y =
        if memYear t y then unitAt t y else firstUnitAt l y := by
  induction l with
  | nil =>
    intro t y
    cases h : memYear t y
    · simp only [List.foldl_nil, if_false, Bool.false_eq_true]
      rw [unitAt_eq_empty_of_memYear_false h]
      rfl
    · simp
  | cons g rest ih =>
    intro t y
    rw [List.foldl_cons, ih, unitAt_aggStep, firstUnitAt_cons, memYear_aggStep]
    cases ht : memYear t y <;> cases hg : memYear g y <;> simp

/-! Section: Helper lemmas: counting rows per year -/

theorem countP_year_eq_count (s : List Point) (y : String) :
    s.countP (fun p => p.ano == y) = (s.map Point.ano).count y := by
  have : (s.map Point.ano).count y = (s.map Point.ano).countP (fun x => x == y) := rfl
  rw [this, List.countP_map]
  rfl

theorem countP_year_eq_one {s : List Point} {y : String} (hu : UniqueYears s)
    (hm : memYear s y = true) : s.countP (fun p => p.ano == y) = 1 := by
  rw [countP_year_eq_count]
  apply List.count_eq_one_of_mem hu
  obtain ⟨p, hp, hpy⟩ := List.any_eq_true.mp hm
  exact List.mem_map.mpr ⟨p, hp, beq_iff_eq.mp hpy⟩

theorem countP_year_eq_zero {s : List Point} {y : String}
    (hm : memYear s y = false) : s.countP (fun p => p.ano == y) = 0 := by
  rw [List.countP_eq_zero]
  intro p hp hpy
  have : memYear s y = true := List.any_eq_true.mpr ⟨p, hp, hpy⟩
  rw [this] at hm
  exact Bool.noConfusion hm

/-! Section: Claim C1 -/

/-- Claim C1 (confirmed): for every list of input series, each with unique
years, the composite built by the merge loop contains, for each year
appearing in at least one input, exactly one point whose value is the sum
of the values at that year across all inputs (inputs lacking the year
contribute `valueAt = 0`), and no point for a year appearing in no input;
aggregating `{2020:5}` and `{2020:3, 2021:7}` yields `{2020:8, 2021:7}`;
and if all inputs are empty the composite is empty. -/
theorem C1_aggregate_outer_join :
    (∀ (inputs : List (List Point)), (∀ s ∈ inputs, UniqueYears s) →
      ∀ y : String,
        ((∃ s ∈ inputs, memYear s y = true) →
          (aggregate inputs).countP (fun p => p.ano == y) = 1 ∧
            valueAt (aggregate inputs) y = (inputs.map (fun s => valueAt s y)).sum) ∧
        ((∀ s ∈ inputs, memYear s y = false) →
          (aggregate inputs).countP (fun p => p.ano == y) = 0)) ∧
    aggregate [[⟨"2020", 5, ""⟩], [⟨"2020", 3, ""⟩, ⟨"2021", 7, ""⟩]] =
      [⟨"2020", 8, ""⟩, ⟨"2021", 7, ""⟩] ∧
    ∀ (inputs : List (List Point)), (∀ s ∈ inputs, s = []) → aggregate inputs = [] := by
  refine ⟨?_, ?_, ?_⟩
  · intro inputs hu y
    constructor
    · intro hex
      obtain ⟨s, hs, hmem⟩ := hex
      have hm : memYear (aggregate inputs) y = true := by
        rw [aggregate, memYear_foldl]
        simp only [Bool.or_eq_true]
        right
        exact List.any_eq_true.mpr ⟨s, hs, hmem⟩
      refine ⟨countP_year_eq_one (uniqueYears_foldl inputs [] (by simp [UniqueYears]) hu) hm, ?_⟩
      rw [aggregate, valueAt_foldl]
      have h0 : valueAt ([] : List Point) y = 0 := rfl
      rw [h0, zero_add]
    · intro hall
      apply countP_year_eq_zero
      rw [aggregate, memYear_foldl]
      have h0 : memYear ([] : List Point) y = false := rfl
      rw [h0, Bool.false_or]
      rw [List.any_eq_false]
      intro s hs
      rw [hall s hs]
      exact Bool.noConfusion
  · simp [aggregate, aggStep, mergeOuter, mergePoint, memYear, List.find?, List.foldl]
    norm_num
  · intro inputs h
    induction inputs with
    | nil => rfl
    | cons s rest ih =>
      have hs : s = [] := h s (List.mem_cons_self s rest)
      subst hs
      show List.foldl aggStep (aggStep [] []) rest = []
      have h0 : aggStep [] [] = [] := rfl
      rw [h0]
      exact ih (fun s hs => h s (List.mem_cons_of_mem _ hs))

/-- Witness for C1: the general part applied to the spec's own example at
year 2020. -/
theorem C1_witness :
    (aggregate [[⟨"2020", 5, ""⟩], [⟨"2020", 3, ""⟩, ⟨"2021", 7, ""⟩]]).countP
        (fun p => p.ano == "2020") = 1 ∧
      valueAt (aggregate [[⟨"2020", 5, ""⟩], [⟨"2020", 3, ""⟩, ⟨"2021", 7, ""⟩]]) "2020" =
        (([[⟨"2020", 5, ""⟩], [⟨"2020", 3, ""⟩, ⟨"2021", 7, ""⟩]] : List (List Point)).map
          (fun s => valueAt s "2020")).sum :=
  (C1_aggregate_outer_join.1 [[⟨"2020", 5, ""⟩], [⟨"2020", 3, ""⟩, ⟨"2021", 7, ""⟩]]
    (by decide) "2020").1 ⟨[⟨"2020", 5, ""⟩], by decide, by decide⟩

/-! Section: Claim C6 -/

/-- Claim C6 (refuted): the claim says the composite unit at a year is
the first NON-EMPTY unit scanning inputs in order, so an empty unit in an
earlier input must not shadow a later non-empty one. The code's
`Unidade_x.fillna(Unidade_y)` only replaces missing entries, not empty
strings: merging `{2020:5, unit ""}` with `{2020:3, unit "Pessoas"}`
keeps the empty unit, while the spec rule picks `"Pessoas"`. -/
theorem C6_counterexample :
    unitAt (aggregate [[⟨"2020", 5, ""⟩], [⟨"2020", 3, "Pessoas"⟩]]) "2020" = "" ∧
      specFirstNonemptyUnitAt [[⟨"2020", 5, ""⟩], [⟨"2020", 3, "Pessoas"⟩]] "2020" =
        "Pessoas" := by
  constructor <;> decide

/-- Claim C6 (amended): the composite's unit at each year is the unit
assigned by the FIRST input series containing that year, scanning inputs
in input order regardless of emptiness; an empty unit in an earlier input
does shadow a non-empty unit in a later one. -/
theorem C6_unit_first_input :
    ∀ (inputs : List (List Point)) (y : String),
      unitAt (aggregate inputs) y = firstUnitAt inputs y := by
  intro inputs y
  rw [aggregate, unitAt_foldl]
  have h0 : memYear ([] : List Point) y = false := rfl
  rw [h0]
  simp

/-! Section: Claim C9 -/

/-- Claim C9 (refuted): the claim says the Normalizer output has at most
one point per year, deduplicating with last-wins. The code appends one
row per valid record with no deduplication: two records for year 2020
yield two points. -/
theorem C9_counterexample :
    (processar_dados [[("D1", "2020"), ("V", "1")], [("D1", "2020"), ("V", "2")]]).countP
      (fun p => p.ano == "2020") = 2 := by
  decide

/-- Claim C9 (amended): the Normalizer emits exactly one point per input
record that normalizes successfully, in input order: the number of output
points at a year equals the number of input records resolving to that
year, so duplicates are preserved (deterministically), never collapsed. -/
theorem C9_duplicate_years_preserved :
    ∀ (data : List RawRecord) (y : String),
      (processar_dados data).countP (fun p => p.ano == y) =
        data.countP (fun item => (processRecord item).any (fun p => p.ano == y)) := by
  intro data y
  induction data with
  | nil => rfl
  | cons item rest ih =>
    show (List.filterMap processRecord (item :: rest)).countP _ = _
    rw [List.filterMap_cons, List.countP_cons]
    cases h : processRecord item with
    | none =>
      simp only [Option.any_none, Bool.false_eq_true, if_false, add_zero]
      exact ih
    | some p =>
      rw [List.countP_cons]
      simp only [Option.any_some]
      rw [show List.filterMap processRecord rest = processar_dados rest from rfl, ih]

/-- Equation lemma: a record with no year field is dropped. -/
theorem processRecord_none {item : RawRecord} (hfa : findAno item = none) :
    processRecord item = none := by
  unfold processRecord
  rw [hfa]

/-- Equation lemma: once the year is found, `processRecord` checks the
sentinel list and parses the value string. -/
theorem processRecord_some {item : RawRecord} {ano : String}
    (hfa : findAno item = some ano) :
    processRecord item =
      (if ((lookupField item "V").getD "0") ∈ SENTINELAS then none
       else
        match parseDecimal (replaceComma ((lookupField item "V").getD "0")) with
        | none => none
        | some valor => some ⟨ano, valor, (lookupField item "MN").getD ""⟩) := by
  unfold processRecord
  rw [hfa]

/-! Section: Claim C2 -/

/-- Claim C2 (confirmed): a record whose value field (defaulted to "0")
equals one of the sentinel strings `-`, `X`, `..`, `...` is dropped by
the Normalizer, and consequently every emitted point stems from a record
whose value field is not a sentinel: no point's value is ever parsed from
a sentinel string. -/
theorem C2_sentinels_filtered :
    (∀ (item : RawRecord), ((lookupField item "V").getD "0") ∈ SENTINELAS →
      processRecord item = none) ∧
    ∀ (data : List RawRecord) (p : Point), p ∈ processar_dados data →
      ∃ item ∈ data, processRecord item = some p ∧
        ((lookupField item "V").getD "0") ∉ SENTINELAS := by
  have hdrop : ∀ (item : RawRecord), ((lookupField item "V").getD "0") ∈ SENTINELAS →
      processRecord item = none := by
    intro item h
    unfold processRecord
    cases findAno item
    · rfl
    · simp only [h, if_true]
  refine ⟨hdrop, ?_⟩
  intro data p hp
  obtain ⟨item, hitem, hsome⟩ := List.mem_filterMap.mp hp
  refine ⟨item, hitem, hsome, ?_⟩
  intro hsent
  rw [hdrop item hsent] at hsome
  exact Option.noConfusion hsome

/-- Witness for C2: a record carrying the sentinel `X` is dropped. -/
theorem C2_witness :
    processRecord [("D1", "2020"), ("V", "X")] = none :=
  C2_sentinels_filtered.1 [("D1", "2020"), ("V", "X")] (by decide)

/-! Section: Claim C8 -/

/-- Claim C8 (refuted): the claim says the year field must belong to the
period range configured for THIS metric family, and only that range. The
code tests membership in `PERIODOS_OBITOS + PERIODOS_DIVORCIOS`, the
union of both families' ranges: a divorce-family record carrying year
2003 — outside the divorce range 2009-2022 — still yields a point,
because 2003 lies in the deaths range. -/
theorem C8_counterexample :
    processar_dados [[("D1", "2003"), ("V", "7")]] = [⟨"2003", 7, ""⟩] ∧
      "2003" ∉ PERIODOS_DIVORCIOS := by
  constructor
  · decide
  · decide

/-- Claim C8 (amended): the year is the value of the first field whose
key starts with `D` and whose value is a member of the UNION of the two
configured period ranges (2003-2022), whichever family the record is
processed for; a record with no such field is dropped without error and
produces no point. -/
theorem C8_year_from_union :
    ∀ (item : RawRecord),
      ((∀ kv ∈ item, ¬(startsWithD kv.1 = true ∧
          kv.2 ∈ PERIODOS_OBITOS ++ PERIODOS_DIVORCIOS)) →
        processRecord item = none ∧ processar_dados [item] = []) ∧
      (∀ p : Point, processRecord item = some p →
        p.ano ∈ PERIODOS_OBITOS ++ PERIODOS_DIVORCIOS ∧
          ∃ kv ∈ item, startsWithD kv.1 = true ∧ kv.2 = p.ano) := by
  intro item
  constructor
  · intro h
    have hfa : findAno item = none := by
      unfold findAno
      rw [List.find?_eq_none.mpr ?_]
      · rfl
      · intro kv hkv hc
        rw [Bool.and_eq_true] at hc
        exact h kv hkv ⟨hc.1, of_decide_eq_true hc.2⟩
    have hpr : processRecord item = none := by
      unfold processRecord
      rw [hfa]
    refine ⟨hpr, ?_⟩
    show List.filterMap processRecord [item] = []
    rw [List.filterMap_cons, hpr]
    rfl
  · intro p hp
    cases hfa : findAno item with
    | none =>
      rw [processRecord_none hfa] at hp
      exact Option.noConfusion hp
    | some ano =>
      rw [processRecord_some hfa] at hp
      have hano : p.ano = ano := by
        by_cases hs : ((lookupField item "V").getD "0") ∈ SENTINELAS
        · rw [if_pos hs] at hp
          exact Option.noConfusion hp
        · rw [if_neg hs] at hp
          cases hpd : parseDecimal (replaceComma ((lookupField item "V").getD "0")) with
          | none =>
            rw [hpd] at hp
            exact Option.noConfusion hp
          | some v =>
            rw [hpd] at hp
            injection hp with h2
            rw [← h2]
      unfold findAno at hfa
      cases hf : item.find? (fun kv =>
          startsWithD kv.1 && decide (kv.2 ∈ PERIODOS_OBITOS ++ PERIODOS_DIVORCIOS)) with
      | none =>
        rw [hf] at hfa
        exact Option.noConfusion hfa
      | some kv =>
        rw [hf] at hfa
        have hkv2 : kv.2 = ano := by
          simpa using hfa
        have hprop := List.find?_some hf
        rw [Bool.and_eq_true] at hprop
        refine ⟨?_, kv, List.mem_of_find?_eq_some hf, hprop.1, by rw [hkv2, hano]⟩
        rw [hano, ← hkv2]
        exact of_decide_eq_true hprop.2

/-- Witness for C8: a record with no key starting in `D` resolves to no
year and is dropped. -/
theorem C8_witness :
    processRecord [("X", "2003"), ("V", "7")] = none ∧
      processar_dados [[("X", "2003"), ("V", "7")]] = [] :=
  (C8_year_from_union [("X", "2003"), ("V", "7")]).1 (by decide)

/-! Section: Claim C10 -/

/-- Claim C10 (confirmed): a record with a valid year field but no `V`
field at all is not dropped: `item.get('V', '0')` defaults the value
string to `"0"`, which is not a sentinel and parses to 0, so the
Normalizer emits a point with value 0 for that year. -/
theorem C10_missing_value_default :
    ∀ (item : RawRecord) (y : String),
      lookupField item "V" = none → findAno item = some y →
      processRecord item = some ⟨y, 0, (lookupField item "MN").getD ""⟩ := by
  intro item y hv hy
  have h0 : (lookupField item "V").getD "0" = "0" := by
    rw [hv]
    rfl
  unfold processRecord
  rw [hy]
  simp only [h0]
  rw [if_neg (by decide)]
  have hp : parseDecimal (replaceComma "0") = some 0 := by decide
  rw [hp]

/-- Witness for C10: a record with only a year field yields a zero point. -/
theorem C10_witness :
    processRecord [("D1", "2020")] = some ⟨"2020", 0, ""⟩ :=
  C10_missing_value_default [("D1", "2020")] "2020" (by decide) (by decide)

/-! Section: Helper lemmas: the lexicographic year order and `lastByAno` -/

theorem lexLe_refl (a : List Char) : lexLe a a = true := by
  induction a with
  | nil => rfl
  | cons c cs ih =>
    unfold lexLe
    rw [if_neg (lt_irrefl c), if_neg (lt_irrefl c)]
    exact ih

theorem lexLe_total (a b : List Char) : lexLe a b = true ∨ lexLe b a = true := by
  induction a generalizing b with
  | nil => left; rfl
  | cons c cs ih =>
    cases b with
    | nil => right; rfl
    | cons d ds =>
      rcases lt_trichotomy c d with h | h | h
      · left
        unfold lexLe
        rw [if_pos h]
      · subst h
        rcases ih ds with h2 | h2
        · left
          unfold lexLe
          rw [if_neg (lt_irrefl c), if_neg (lt_irrefl c)]
          exact h2
        · right
          unfold lexLe
          rw [if_neg (lt_irrefl c), if_neg (lt_irrefl c)]
          exact h2
      · right
        unfold lexLe
        rw [if_pos h]

theorem lexLe_trans {a b c : List Char} (h1 : lexLe a b = true)
    (h2 : lexLe b c = true) : lexLe a c = true := by
  induction a generalizing b c with
  | nil => rfl
  | cons x xs ih =>
    cases b with
    | nil => exact absurd h1 (by simp [lexLe])
    | cons y ys =>
      cases c with
      | nil => exact absurd h2 (by simp [lexLe])
      | cons z zs =>
        unfold lexLe at h1 h2 ⊢
        rcases lt_trichotomy x y with hxy | hxy | hxy
        · rcases lt_trichotomy y z with hyz | hyz | hyz
          · rw [if_pos (lt_trans hxy hyz)]
          · subst hyz
            rw [if_pos hxy]
          · rw [if_pos hyz, if_neg (lt_asymm hyz)] at h2
            exact Bool.noConfusion h2
        · subst hxy
          rcases lt_trichotomy x z with hyz | hyz | hyz
          · rw [if_pos hyz]
          · subst hyz
            rw [if_neg (lt_irrefl x), if_neg (lt_irrefl x)] at h1 h2 ⊢
            exact ih h1 h2
          · rw [if_pos hyz, if_neg (lt_asymm hyz)] at h2
            exact Bool.noConfusion h2
        · rw [if_pos hxy, if_neg (lt_asymm hxy)] at h1
          exact Bool.noConfusion h1

theorem foldl_lastByAno_mem (rest : List Point) :
    ∀ (p : Point),
      rest.foldl (fun acc q => if lexLe acc.ano.data q.ano.data then q else acc) p ∈
        p :: rest := by
  induction rest with
  | nil => intro p; exact List.mem_cons_self p []
  | cons q rest ih =>
    intro p
    rw [List.foldl_cons]
    rcases List.mem_cons.mp (ih (if lexLe p.ano.data q.ano.data then q else p)) with h | h
    · rw [h]
      split
      · exact List.mem_cons_of_mem p (List.mem_cons_self q rest)
      · exact List.mem_cons_self p (q :: rest)
    · exact List.mem_cons_of_mem p (List.mem_cons_of_mem q h)

theorem foldl_lastByAno_max (rest : List Point) :
    ∀ (p q : Point), q ∈ p :: rest →
      lexLe q.ano.data
        (rest.foldl (fun acc r => if lexLe acc.ano.data r.ano.data then r else acc) p).ano.data =
        true := by
  induction rest with
  | nil =>
    intro p q hq
    rcases List.mem_cons.mp hq with h | h
    · rw [h]
      exact lexLe_refl _
    · exact absurd h (List.not_mem_nil q)
  | cons r rest ih =>
    intro p q hq
    rw [List.foldl_cons]
    have hstep : lexLe p.ano.data (if lexLe p.ano.data r.ano.data then r else p).ano.data = true ∧
        lexLe r.ano.data (if lexLe p.ano.data r.ano.data then r else p).ano.data = true := by
      by_cases hc : lexLe p.ano.data r.ano.data = true
      · rw [if_pos hc]
        exact ⟨hc, lexLe_refl _⟩
      · rw [if_neg hc]
        rcases lexLe_total p.ano.data r.ano.data with h | h
        · exact absurd h hc
        · exact ⟨lexLe_refl _, h⟩
    rcases List.mem_cons.mp hq with h | h
    · rw [h]
      exact lexLe_trans hstep.1
        (ih _ _ (List.mem_cons_self _ rest))
    · rcases List.mem_cons.mp h with h2 | h2
      · rw [h2]
        exact lexLe_trans hstep.2
          (ih _ _ (List.mem_cons_self _ rest))
      · exact ih _ _ (List.mem_cons_of_mem _ h2)

theorem lastByAno_mem {s : List Point} {p : Point} (h : lastByAno s = some p) :
    p ∈ s := by
  cases s with
  | nil => exact Option.noConfusion h
  | cons q rest =>
    unfold lastByAno at h
    injection h with h2
    rw [← h2]
    exact foldl_lastByAno_mem rest q

theorem lastByAno_max {s : List Point} {p : Point} (h : lastByAno s = some p) :
    ∀ q ∈ s, lexLe q.ano.data p.ano.data = true := by
  cases s with
  | nil => exact Option.noConfusion h
  | cons r rest =>
    unfold lastByAno at h
    injection h with h2
    rw [← h2]
    exact fun q hq => foldl_lastByAno_max rest r q hq

/-- Equation lemma: the annotation once both maximal rows exist. -/
theorem razaoUltimoAno_eq {dfC dfN : List Point} {uc un : Point}
    (h1 : lastByAno dfC = some uc) (h2 : lastByAno dfN = some un) :
    razaoUltimoAno dfC dfN =
      if uc.ano = un.ano ∧ 0 < uc.valor then some (un.valor / uc.valor) else none := by
  unfold razaoUltimoAno
  rw [h1, h2]

/-! Section: Claim C7 -/

/-- Claim C7 (refuted): the claim says the annotation reports the ratio
at the LATEST YEAR PRESENT IN BOTH series whenever the denominator there
is positive, even when the two series' maximum years differ. The code
compares only the two maximal rows (`iloc[-1]` of each sorted frame):
with denominator years {2019, 2020} and numerator years {2019, 2021},
the shared year 2019 has positive denominator 2, the spec rule reports
8/2 = 4, yet the code omits the annotation because 2020 and 2021 differ. -/
theorem C7_counterexample :
    razaoUltimoAno [⟨"2019", 2, ""⟩, ⟨"2020", 4, ""⟩]
        [⟨"2019", 8, ""⟩, ⟨"2021", 3, ""⟩] = none ∧
      specLastCommonYearRatio [⟨"2019", 2, ""⟩, ⟨"2020", 4, ""⟩]
        [⟨"2019", 8, ""⟩, ⟨"2021", 3, ""⟩] = some 4 := by
  constructor
  · decide
  · simp [specLastCommonYearRatio, List.find?, lexLe]
    norm_num

/-- Claim C7 (amended): the annotation is produced exactly when the two
series' maximal-year rows (each series' own latest year, `iloc[-1]` after
a stable sort) carry the SAME year and the denominator value there is
positive, in which case it reports numerator/denominator at that year; in
every other case — including when a common year exists but the maximum
years differ — it is omitted, not an error. -/
theorem C7_ratio_same_max_year :
    ∀ (dfCasados dfNaoCasados : List Point) (uc un : Point),
      lastByAno dfCasados = some uc → lastByAno dfNaoCasados = some un →
      uc ∈ dfCasados ∧ un ∈ dfNaoCasados ∧
      (∀ p ∈ dfCasados, lexLe p.ano.data uc.ano.data = true) ∧
      (∀ q ∈ dfNaoCasados, lexLe q.ano.data un.ano.data = true) ∧
      (uc.ano = un.ano ∧ 0 < uc.valor →
        razaoUltimoAno dfCasados dfNaoCasados = some (un.valor / uc.valor)) ∧
      (¬(uc.ano = un.ano ∧ 0 < uc.valor) →
        razaoUltimoAno dfCasados dfNaoCasados = none) := by
  intro dfC dfN uc un h1 h2
  refine ⟨lastByAno_mem h1, lastByAno_mem h2, lastByAno_max h1, lastByAno_max h2, ?_, ?_⟩
  · intro hc
    rw [razaoUltimoAno_eq h1 h2, if_pos hc]
  · intro hc
    rw [razaoUltimoAno_eq h1 h2, if_neg hc]

/-- Witness for C7: two series whose maximal years coincide at 2020 with
positive denominator 4 produce the annotation 8/4. -/
theorem C7_witness :
    razaoUltimoAno [⟨"2019", 2, ""⟩, ⟨"2020", 4, ""⟩]
        [⟨"2019", 8, ""⟩, ⟨"2020", 8, ""⟩] = some (8 / 4) :=
  (C7_ratio_same_max_year [⟨"2019", 2, ""⟩, ⟨"2020", 4, ""⟩]
    [⟨"2019", 8, ""⟩, ⟨"2020", 8, ""⟩] ⟨"2020", 4, ""⟩ ⟨"2020", 8, ""⟩
    (by decide) (by decide)).2.2.2.2.1 ⟨rfl, by decide⟩

/-! Section: Helper lemmas: request logs of the fetchers -/

theorem consultar_nc_log (net : Net) (rm codigo : String) :
    (consultar_obitos_nao_casados net rm codigo).2 = [reqObitos codigo "n7" rm] := by
  unfold consultar_obitos_nao_casados
  cases h : net (reqObitos codigo "n7" rm) <;> simp [h]

theorem consultar_casados_log_sub (net : Net) (rm : String) :
    (consultar_obitos_casados net rm).2.Sublist
      [reqObitos ESTADO_CIVIL_CASADO "n7" rm, reqObitos ESTADO_CIVIL_CASADO "n1" "1"] := by
  unfold consultar_obitos_casados
  cases h : net (reqObitos ESTADO_CIVIL_CASADO "n7" rm) with
  | none =>
    cases h2 : net (reqObitos ESTADO_CIVIL_CASADO "n1" "1") <;>
      simp only [h, h2] <;> exact List.Sublist.refl _
  | some v =>
    simp only [h]
    exact List.Sublist.cons₂ _ (List.nil_sublist _)

theorem consultar_div_log_sub (net : Net) (rm tempo : String) :
    (consultar_divorcios net rm tempo).2.Sublist
      [reqDivorcios tempo "n7" rm, reqDivorcios tempo "n1" "1"] := by
  unfold consultar_divorcios
  cases h : net (reqDivorcios tempo "n7" rm) with
  | none =>
    cases h2 : net (reqDivorcios tempo "n1" "1") <;>
      simp only [h, h2] <;> exact List.Sublist.refl _
  | some v =>
    simp only [h]
    exact List.Sublist.cons₂ _ (List.nil_sublist _)

theorem fetch_nc_loop_log (net : Net) (rm : String) (cs : List String) :
    ∀ (acc : List Point × List Req),
      (cs.foldl (fun acc codigo =>
        let r := consultar_obitos_nao_casados net rm codigo
        (aggStep acc.1 (processar_dados r.1), acc.2 ++ r.2)) acc).2 =
      acc.2 ++ cs.map (fun c => reqObitos c "n7" rm) := by
  induction cs with
  | nil => intro acc; simp
  | cons c cs ih =>
    intro acc
    rw [List.foldl_cons, ih]
    simp only [consultar_nc_log, List.map_cons]
    rw [List.append_assoc]
    rfl

theorem fetch_nc_loop_fst (net : Net) (rm : String) (cs : List String) :
    ∀ (t : List Point) (l : List Req),
      (cs.foldl (fun acc codigo =>
        let r := consultar_obitos_nao_casados net rm codigo
        (aggStep acc.1 (processar_dados r.1), acc.2 ++ r.2)) (t, l)).1 =
      (cs.map (fun c => processar_dados (consultar_obitos_nao_casados net rm c).1)).foldl
        aggStep t := by
  induction cs with
  | nil => intro t l; rfl
  | cons c cs ih =>
    intro t l
    rw [List.foldl_cons, List.map_cons, List.foldl_cons]
    exact ih _ _

/-- The non-married composite produced by `get_data_for_region` is
exactly the Aggregator applied to the six processed category series:
claim C1's `aggregate` is the program path of lines 538-558. -/
theorem fetch_nao_casados_eq_aggregate (net : Net) (rm : String) :
    (fetch_nao_casados net rm).1 =
      aggregate (ESTADO_CIVIL_NAO_CASADOS.map
        (fun c => processar_dados (consultar_obitos_nao_casados net rm c).1)) :=
  fetch_nc_loop_fst net rm ESTADO_CIVIL_NAO_CASADOS [] []

theorem fetch_div_loop_log_sub (net : Net) (rm : String) (kvs : List (String × String)) :
    ∀ (acc : List (String × List Point) × List Req),
      ((kvs.foldl (fun acc kv =>
          let r := consultar_divorcios net rm kv.1
          (acc.1 ++ [(kv.1, processar_dados r.1)], acc.2 ++ r.2)) acc).2).Sublist
        (acc.2 ++ (kvs.map
          (fun kv => [reqDivorcios kv.1 "n7" rm, reqDivorcios kv.1 "n1" "1"])).flatten) := by
  induction kvs with
  | nil => intro acc; simp
  | cons kv kvs ih =>
    intro acc
    rw [List.foldl_cons]
    refine (ih _).trans ?_
    rw [List.map_cons, List.flatten_cons, ← List.append_assoc]
    exact List.Sublist.append
      (List.Sublist.append (List.Sublist.refl acc.2) (consultar_div_log_sub net rm kv.1))
      (List.Sublist.refl _)

/-! Section: Helper lemmas: the cache behaviour of `get_data_for_region` -/

theorem lookup_insert (c : Cache) (rm : String) (ld : LocationData) :
    Cache.lookup (Cache.insert rm ld c) rm = some ld := by
  unfold Cache.insert Cache.lookup
  rw [List.find?_cons]
  simp

theorem gdr_hit (net : Net) {cache : Cache} {rm : String} {d : LocationData}
    (h : Cache.lookup cache rm = some d) :
    get_data_for_region net cache rm = (d, cache, []) := by
  unfold get_data_for_region
  rw [h]

theorem gdr_miss {net : Net} {cache : Cache} {rm : String}
    (h : Cache.lookup cache rm = none) :
    get_data_for_region net cache rm =
      (⟨processar_dados (consultar_obitos_casados net rm).1,
        (fetch_nao_casados net rm).1, (fetch_divorcios net rm).1⟩,
       Cache.insert rm
         ⟨processar_dados (consultar_obitos_casados net rm).1,
          (fetch_nao_casados net rm).1, (fetch_divorcios net rm).1⟩ cache,
       (consultar_obitos_casados net rm).2 ++ (fetch_nao_casados net rm).2 ++
         (fetch_divorcios net rm).2) := by
  unfold get_data_for_region
  rw [h]

theorem gdr_populates (net : Net) (cache : Cache) (rm : String) :
    Cache.lookup (get_data_for_region net cache rm).2.1 rm =
      some (get_data_for_region net cache rm).1 := by
  cases h : Cache.lookup cache rm with
  | none =>
    rw [gdr_miss h]
    exact lookup_insert cache rm _
  | some d =>
    rw [gdr_hit net h]
    exact h

theorem allReqs_nodup (rm : String) : (allReqs rm).Nodup := by
  apply List.Nodup.of_map reqKey
  have h : (allReqs rm).map reqKey =
    [(TABELA_OBITOS, [("c9832", ESTADO_CIVIL_CASADO), ("c1836", NATUREZA_OBITO)], "n7"),
     (TABELA_OBITOS, [("c9832", ESTADO_CIVIL_CASADO), ("c1836", NATUREZA_OBITO)], "n1"),
     (TABELA_OBITOS, [("c9832", "78090"), ("c1836", NATUREZA_OBITO)], "n7"),
     (TABELA_OBITOS, [("c9832", "78092"), ("c1836", NATUREZA_OBITO)], "n7"),
     (TABELA_OBITOS, [("c9832", "78093"), ("c1836", NATUREZA_OBITO)], "n7"),
     (TABELA_OBITOS, [("c9832", "78094"), ("c1836", NATUREZA_OBITO)], "n7"),
     (TABELA_OBITOS, [("c9832", "99195"), ("c1836", NATUREZA_OBITO)], "n7"),
     (TABELA_OBITOS, [("c9832", "99217"), ("c1836", NATUREZA_OBITO)], "n7"),
     (TABELA_DIVORCIOS, [("c345", "8074")], "n7"),
     (TABELA_DIVORCIOS, [("c345", "8074")], "n1"),
     (TABELA_DIVORCIOS, [("c345", "8084")], "n7"),
     (TABELA_DIVORCIOS, [("c345", "8084")], "n1"),
     (TABELA_DIVORCIOS, [("c345", "8090")], "n7"),
     (TABELA_DIVORCIOS, [("c345", "8090")], "n1"),
     (TABELA_DIVORCIOS, [("c345", "8097")], "n7"),
     (TABELA_DIVORCIOS, [("c345", "8097")], "n1")] := rfl
  rw [h]
  decide

theorem gdr_log_sub (net : Net) (cache : Cache) (rm : String) :
    (get_data_for_region net cache rm).2.2.Sublist (allReqs rm) := by
  cases h : Cache.lookup cache rm with
  | some d =>
    rw [gdr_hit net h]
    exact List.nil_sublist _
  | none =>
    rw [gdr_miss h]
    show ((consultar_obitos_casados net rm).2 ++ (fetch_nao_casados net rm).2 ++
      (fetch_divorcios net rm).2).Sublist (allReqs rm)
    unfold allReqs
    refine List.Sublist.append (List.Sublist.append ?_ ?_) ?_
    · exact consultar_casados_log_sub net rm
    · rw [show (fetch_nao_casados net rm).2 =
        ESTADO_CIVIL_NAO_CASADOS.map (fun c => reqObitos c "n7" rm) from
        fetch_nc_loop_log net rm ESTADO_CIVIL_NAO_CASADOS ([], [])]
    · exact fetch_div_loop_log_sub net rm TEMPO_CASAMENTOS ([], [])

theorem gdr_log_nodup (net : Net) (cache : Cache) (rm : String) :
    (get_data_for_region net cache rm).2.2.Nodup :=
  (gdr_log_sub net cache rm).nodup (allReqs_nodup rm)

/-! Section: Claim C3 -/

/-- Claim C3 (refuted): the claim says EVERY category fetch retries once
against the national aggregate when the primary sub-national request
fails. `consultar_obitos_nao_casados` — used for all six non-married
category fetches — has no fallback: with every request failing, it issues
only the single primary request and never the national one. -/
theorem C3_counterexample :
    (consultar_obitos_nao_casados netFail "3301" "78090").2 =
      [reqObitos "78090" "n7" "3301"] ∧
      reqObitos "78090" "n1" "1" ∉ (consultar_obitos_nao_casados netFail "3301" "78090").2 := by
  constructor
  · decide
  · decide

/-- Claim C3 (amended): on primary failure the married-deaths fetch and
each divorce fetch retry exactly once against the national aggregate
(level n1, id 1) with an otherwise-identical request (same table,
variable, periods and category filters); the six non-married category
fetches never retry: they issue exactly one request regardless of
outcome. -/
theorem C3_fallback_casados_divorcios_only :
    ∀ (net : Net) (rm_id codigo tempo : String),
      (net (reqObitos ESTADO_CIVIL_CASADO "n7" rm_id) = none →
        (consultar_obitos_casados net rm_id).2 =
          [reqObitos ESTADO_CIVIL_CASADO "n7" rm_id,
           reqObitos ESTADO_CIVIL_CASADO "n1" "1"]) ∧
      (net (reqDivorcios tempo "n7" rm_id) = none →
        (consultar_divorcios net rm_id tempo).2 =
          [reqDivorcios tempo "n7" rm_id, reqDivorcios tempo "n1" "1"]) ∧
      (consultar_obitos_nao_casados net rm_id codigo).2 =
        [reqObitos codigo "n7" rm_id] ∧
      (reqObitos ESTADO_CIVIL_CASADO "n1" "1").tabela =
        (reqObitos ESTADO_CIVIL_CASADO "n7" rm_id).tabela ∧
      (reqObitos ESTADO_CIVIL_CASADO "n1" "1").variavel =
        (reqObitos ESTADO_CIVIL_CASADO "n7" rm_id).variavel ∧
      (reqObitos ESTADO_CIVIL_CASADO "n1" "1").periodos =
        (reqObitos ESTADO_CIVIL_CASADO "n7" rm_id).periodos ∧
      (reqObitos ESTADO_CIVIL_CASADO "n1" "1").filtros =
        (reqObitos ESTADO_CIVIL_CASADO "n7" rm_id).filtros ∧
      (reqDivorcios tempo "n1" "1").tabela = (reqDivorcios tempo "n7" rm_id).tabela ∧
      (reqDivorcios tempo "n1" "1").variavel = (reqDivorcios tempo "n7" rm_id).variavel ∧
      (reqDivorcios tempo "n1" "1").periodos = (reqDivorcios tempo "n7" rm_id).periodos ∧
      (reqDivorcios tempo "n1" "1").filtros = (reqDivorcios tempo "n7" rm_id).filtros := by
  intro net rm codigo tempo
  refine ⟨?_, ?_, consultar_nc_log net rm codigo,
    rfl, rfl, rfl, rfl, rfl, rfl, rfl, rfl⟩
  · intro h
    unfold consultar_obitos_casados
    cases h2 : net (reqObitos ESTADO_CIVIL_CASADO "n1" "1") <;> simp [h, h2]
  · intro h
    unfold consultar_divorcios
    cases h2 : net (reqDivorcios tempo "n1" "1") <;> simp [h, h2]

/-- Witness for C3: under the always-failing network the married-deaths
fetch issues the primary request and then the national fallback. -/
theorem C3_witness :
    (consultar_obitos_casados netFail "3301").2 =
      [reqObitos ESTADO_CIVIL_CASADO "n7" "3301",
       reqObitos ESTADO_CIVIL_CASADO "n1" "1"] :=
  (C3_fallback_casados_divorcios_only netFail "3301" "78090" "8074").1 rfl

/-! Section: Claim C4 -/

/-- Claim C4 (confirmed): per region, the cache is consulted before any
remote call (a hit returns immediately with an empty request log and an
unchanged cache), it is populated after the fetching pass, and a second
fetch with the same region id is served from the cache with no network
activity and the same payload; across the two fetches every request —
hence every query with identical table/variable/periods/filters/geography
— is issued at most once. -/
theorem C4_cache_at_most_one_request :
    ∀ (net : Net) (cache : Cache) (rm_id : String),
      (∀ d, Cache.lookup cache rm_id = some d →
        get_data_for_region net cache rm_id = (d, cache, [])) ∧
      Cache.lookup (get_data_for_region net cache rm_id).2.1 rm_id =
        some (get_data_for_region net cache rm_id).1 ∧
      (get_data_for_region net (get_data_for_region net cache rm_id).2.1 rm_id).1 =
        (get_data_for_region net cache rm_id).1 ∧
      (get_data_for_region net (get_data_for_region net cache rm_id).2.1 rm_id).2.2 = [] ∧
      ∀ r : Req,
        ((get_data_for_region net cache rm_id).2.2 ++
          (get_data_for_region net (get_data_for_region net cache rm_id).2.1 rm_id).2.2).count
          r ≤ 1 := by
  intro net cache rm
  have hpop := gdr_populates net cache rm
  have hsecond := gdr_hit net hpop
  refine ⟨fun d h => gdr_hit net h, hpop, by rw [hsecond], by rw [hsecond], ?_⟩
  intro r
  rw [hsecond]
  rw [List.append_nil]
  exact List.nodup_iff_count_le_one.mp (gdr_log_nodup net cache rm) r

/-- Witness for C4: a cache that already holds region 3301 short-circuits
the fetch entirely. -/
theorem C4_witness :
    get_data_for_region netOk [("3301", ⟨[], [], []⟩)] "3301" =
      (⟨[], [], []⟩, [("3301", ⟨[], [], []⟩)], []) :=
  (C4_cache_at_most_one_request netOk [("3301", ⟨[], [], []⟩)] "3301").1
    ⟨[], [], []⟩ (by decide)

/-! Section: Claim C5 -/

/-- Claim C5 (refuted): the claim says a run whose fetches all fail is
NOT cached, so a later identical query re-issues a request and can
succeed. Line 570 stores `location_data` unconditionally: under the
always-failing network the empty payload IS cached under the region key,
and the second invocation finds it there and issues NO request at all. -/
theorem C5_counterexample :
    (get_data_for_region netFail [] "3301").1 =
      ⟨[], [], [("8074", []), ("8084", []), ("8090", []), ("8097", [])]⟩ ∧
      Cache.lookup (get_data_for_region netFail [] "3301").2.1 "3301" =
        some (get_data_for_region netFail [] "3301").1 ∧
      (get_data_for_region netFail (get_data_for_region netFail [] "3301").2.1 "3301").2.2 =
        [] := by
  refine ⟨by decide, by decide, by decide⟩

/-- Claim C5 (amended): the result of a completely failed fetching pass
(every series empty) is stored in the cache like any other: afterwards
the cache maps the region to the empty payload, and a later invocation of
the same region within the run is served from the cache, issuing no new
remote request and returning the same empty data. -/
theorem C5_failure_result_cached :
    ∀ (cache : Cache) (rm_id : String),
      Cache.lookup cache rm_id = none →
      Cache.lookup (get_data_for_region netFail cache rm_id).2.1 rm_id =
          some (get_data_for_region netFail cache rm_id).1 ∧
        (get_data_for_region netFail cache rm_id).1.obitos_casados = [] ∧
        (get_data_for_region netFail cache rm_id).1.obitos_nao_casados = [] ∧
        (get_data_for_region netFail
            (get_data_for_region netFail cache rm_id).2.1 rm_id).2.2 = [] ∧
        (get_data_for_region netFail
            (get_data_for_region netFail cache rm_id).2.1 rm_id).1 =
          (get_data_for_region netFail cache rm_id).1 := by
  intro cache rm h
  have hpop := gdr_populates netFail cache rm
  have hsecond := gdr_hit netFail hpop
  refine ⟨hpop, ?_, ?_, by rw [hsecond], by rw [hsecond]⟩
  · rw [gdr_miss h]
    rfl
  · rw [gdr_miss h]
    rfl

/-- Witness for C5 (amended): concrete run at region 3301 with an empty
starting cache. -/
theorem C5_witness :
    Cache.lookup (get_data_for_region netFail [] "3301").2.1 "3301" =
        some (get_data_for_region netFail [] "3301").1 ∧
      (get_data_for_region netFail [] "3301").1.obitos_casados = [] ∧
      (get_data_for_region netFail [] "3301").1.obitos_nao_casados = [] ∧
      (get_data_for_region netFail
          (get_data_for_region netFail [] "3301").2.1 "3301").2.2 = [] ∧
      (get_data_for_region netFail
          (get_data_for_region netFail [] "3301").2.1 "3301").1 =
        (get_data_for_region netFail [] "3301").1 :=
  C5_failure_result_cached [] "3301" rfl
